import Mathlib

/-!
Verification of the Rocket Dodge frame engine (src/js/game.js).

The file shallowly embeds the game's per-frame update (`gameLoop` and the
helpers it calls) as pure functions over an explicit session state.  Numeric
fields are modelled with `ℚ` (every gameplay-relevant constant — gravity 0.5,
speeds 2.5 and 0.5, boost -10 — is a small dyadic rational, so the float
arithmetic of the source is exact and the rational model is faithful; the
purely cosmetic confetti constant 0.05 is idealised as 1/20).  Calls to
`Math.random()` are modelled as oracle inputs supplied by an `Env` value per
tick; distinct call sites read distinct oracle slots, which is an equivalent
presentation of the source's nondeterminism since no claim relates two draws.
`Math.hypot d1 d2 < r` is embedded as `d1*d1 + d2*d2 < r*r`, equivalent for
the nonnegative radii the code uses.  DOM, canvas drawing, and audio calls
are external effects with no bearing on the session state and are omitted;
the `localStorage` high-score cell is the `highScore` field (the source keeps
the in-memory copy and the persisted copy identical at every write).
Canvas dimensions are the default configuration 800 × 600 used by
`initGame`.
-/

namespace RocketDodge

/-- Canvas width (default `initGame` configuration). -/
def canvasW : ℚ := 800

/-- Canvas height (default `initGame` configuration). -/
def canvasH : ℚ := 600

/-- Fixed horizontal rocket position (`rocket.x`, never mutated). -/
def rocketX : ℚ := 100

/-- Rocket width (`rocket.width`). -/
def rocketW : ℚ := 40

/-- Rocket height (`rocket.height`). -/
def rocketH : ℚ := 40

/-- Gravity per tick (`rocket.gravity = 0.5`). -/
def gravity : ℚ := 1/2

/-- Boost impulse (`rocket.boost = -10`). -/
def boostImpulse : ℚ := -10

/-- Base horizontal scroll speed (`obstacleSpeed = 2.5`). -/
def obstacleSpeed : ℚ := 5/2

/-- Vertical gap size of an obstacle (`obstacleGap = 250`). -/
def obstacleGap : ℚ := 250

/-- Base obstacle spawn period in ticks (`obstacleFrequency = 140`). -/
def obstacleFrequency : ℤ := 140

/-- Mutable rocket state; `rot` is the source's `rotation` field. -/
structure Rocket where
  y : ℚ
  velocity : ℚ
  hasShield : Bool
  shieldTime : ℤ
  rot : ℚ
deriving DecidableEq

/-- An obstacle: a pair of pillars leaving a vertical gap. -/
structure Obstacle where
  x : ℚ
  topHeight : ℚ
  bottomY : ℚ
  width : ℚ
  passed : Bool
deriving DecidableEq

/-- A collectible star. -/
structure Star where
  x : ℚ
  y : ℚ
  size : ℚ
  collected : Bool
deriving DecidableEq

/-- A shield power-up (the only power-up type in the source). -/
structure PowerUp where
  x : ℚ
  y : ℚ
  size : ℚ
  collected : Bool
deriving DecidableEq

/-- A cosmetic particle (boost exhaust or explosion debris). -/
structure Particle where
  x : ℚ
  y : ℚ
  vx : ℚ
  vy : ℚ
  size : ℚ
  life : ℚ
deriving DecidableEq

/-- A cosmetic confetti particle emitted at game over. -/
structure Confetti where
  x : ℚ
  y : ℚ
  vx : ℚ
  vy : ℚ
  size : ℚ
  life : ℚ
deriving DecidableEq

/-- The full session state owned by the engine (the module-level mutable
variables of the source). -/
structure GState where
  gameRunning : Bool
  score : ℕ
  highScore : ℕ
  level : ℕ
  frameCount : ℕ
  rocket : Rocket
  obstacles : List Obstacle
  stars : List Star
  powerUps : List PowerUp
  particles : List Particle
  confetti : List Confetti
deriving DecidableEq

/-- Oracle inputs for one tick: the page-visibility flag read by `gameLoop`
and the `Math.random()` draws consumed by the spawn and effect helpers. -/
structure Env where
  hidden : Bool
  obstacleRand : ℚ
  starRand : ℚ
  powerUpRand : ℚ
  rand : ℕ → ℚ

/-- Horizontal scroll speed this tick (`obstacleSpeed + level * 0.5`). -/
def moveSpeed (lvl : ℕ) : ℚ := obstacleSpeed + (lvl : ℚ) * (1/2)

/-- Confetti burst created by `createConfetti` (120 particles; positions,
velocities, sizes and lifetimes drawn from the oracle). -/
def createConfetti (r : ℕ → ℚ) : List Confetti :=
  (List.range 120).map fun i =>
    { x := r (5*i) * canvasW, y := -20, vx := r (5*i+1) * 4 - 2,
      vy := r (5*i+2) * 4 + 2, size := r (5*i+3) * 8 + 4,
      life := r (5*i+4) * 60 + 60 }

/-- Explosion burst created by `createExplosion` (15 particles; the cosine /
sine spread of the velocities is folded into the oracle draws as the
particles never feed back into game logic). -/
def createExplosion (r : ℕ → ℚ) (x y : ℚ) : List Particle :=
  (List.range 15).map fun i =>
    { x := x, y := y, vx := r (3*i), vy := r (3*i+1),
      size := r (3*i+2) * 6 + 3, life := 40 }

/-- Exhaust burst created by `createBoostParticles` (5 particles at the
rocket's left edge). -/
def createBoostParticles (r : ℕ → ℚ) (rk : Rocket) : List Particle :=
  (List.range 5).map fun i =>
    { x := rocketX, y := rk.y + rocketH / 2, vx := -(r (3*i)) * 3 - 1,
      vy := r (3*i+1) * 4 - 2, size := r (3*i+2) * 4 + 2, life := 30 }

/-- The `endGame` function: stop the session, emit confetti, and persist the
high score when the final score beats it. -/
def endGame (r : ℕ → ℚ) (g : GState) : GState :=
  let g1 : GState := { g with gameRunning := false,
                              confetti := g.confetti ++ createConfetti r }
  if g1.highScore < g1.score then { g1 with highScore := g1.score } else g1

/-- The `stopGame` function: just clear the running flag. -/
def stopGame (g : GState) : GState := { g with gameRunning := false }

/-- The `resetGame` function: clear every transient collection and counter;
the high score and the rocket's rotation are left untouched, as in the
source. -/
def resetGame (g : GState) : GState :=
  { gameRunning := false, score := 0, level := 1, frameCount := 0,
    highScore := g.highScore,
    rocket := { y := canvasH / 2, velocity := 0, hasShield := false,
                shieldTime := 0, rot := g.rocket.rot },
    obstacles := [], stars := [], powerUps := [], particles := [],
    confetti := [] }

/-- The `startGame` function (sans the self-scheduling of `gameLoop`, which
the host's frame loop owns): reset, then mark the session running. -/
def startGame (g : GState) : GState := { resetGame g with gameRunning := true }

/-- The `handleInput` function: boost while running, otherwise start a
session. -/
def handleInput (r : ℕ → ℚ) (g : GState) : GState :=
  if g.gameRunning then
    { g with rocket := { g.rocket with velocity := boostImpulse },
             particles := g.particles ++ createBoostParticles r g.rocket }
  else startGame g

/-- Kinematics and shield decay of `updateRocket` before the boundary check:
gravity, position integration, rotation, shield-timer countdown. -/
def integrate (rk : Rocket) : Rocket :=
  let r1 : Rocket := { rk with velocity := rk.velocity + gravity }
  let r2 : Rocket := { r1 with y := r1.y + r1.velocity }
  let r3 : Rocket := { r2 with rot := r2.velocity * (1/20) }
  if r3.hasShield then
    let r4 : Rocket := { r3 with shieldTime := r3.shieldTime - 1 }
    if r4.shieldTime ≤ 0 then { r4 with hasShield := false } else r4
  else r3

/-- Boundary test of `updateRocket`:
`rocket.y + rocket.height > canvas.height || rocket.y < 0`. -/
def outOfBoundsB (rk : Rocket) : Bool :=
  decide (canvasH < rk.y + rocketH) || decide (rk.y < 0)

/-- The `updateRocket` function: integrate, then either terminate on an
unshielded boundary exit or clamp a shielded rocket back into the field with
zero velocity. -/
def updateRocket (r : ℕ → ℚ) (g : GState) : GState :=
  let rk := integrate g.rocket
  let g1 : GState := { g with rocket := rk }
  if outOfBoundsB rk then
    if !rk.hasShield then endGame r g1
    else { g1 with rocket := { rk with y := max 0 (min (canvasH - rocketH) rk.y),
                                       velocity := 0 } }
  else g1

/-- Level-adjusted spawn period `obstacleFrequency - level * 5` computed by
`gameLoop`; the source applies no clamp to it. -/
def spawnPeriod (lvl : ℕ) : ℤ := obstacleFrequency - (lvl : ℤ) * 5

/-- Obstacle spawn test `frameCount % (obstacleFrequency - level * 5) === 0`.
In JavaScript a zero period makes the remainder `NaN` (the test is false) and
a negative period gives the remainder the dividend's sign, so the test agrees
with `frameCount % |period| = 0`; both behaviours are reproduced here. -/
def obstacleSpawn (lvl : ℕ) (frame : ℕ) : Bool :=
  let p := spawnPeriod lvl
  !(p == 0) && (frame % p.natAbs == 0)

/-- The `createObstacle` function: random gap position within playable
bounds. -/
def createObstacle (ρ : ℚ) : Obstacle :=
  let minHeight : ℚ := 80
  let maxHeight : ℚ := canvasH - obstacleGap - minHeight
  let topHeight := ρ * maxHeight + minHeight
  { x := canvasW, topHeight := topHeight, bottomY := topHeight + obstacleGap,
    width := 80, passed := false }

/-- The `createStar` function. -/
def createStar (ρ : ℚ) : Star :=
  { x := canvasW, y := ρ * (canvasH - 60) + 30, size := 15, collected := false }

/-- The `createPowerUp` function. -/
def createPowerUp (ρ : ℚ) : PowerUp :=
  { x := canvasW, y := ρ * (canvasH - 60) + 30, size := 20, collected := false }

/-- The three spawn cadences of `gameLoop` (lines 267-280): obstacles on the
level-adjusted period, stars every 80 ticks, power-ups every 300 ticks. -/
def spawns (e : Env) (g : GState) : GState :=
  let g1 := if obstacleSpawn g.level g.frameCount then
              { g with obstacles := g.obstacles ++ [createObstacle e.obstacleRand] }
            else g
  let g2 := if g1.frameCount % 80 == 0 then
              { g1 with stars := g1.stars ++ [createStar e.starRand] }
            else g1
  if g2.frameCount % 300 == 0 then
    { g2 with powerUps := g2.powerUps ++ [createPowerUp e.powerUpRand] }
  else g2

/-- Horizontal advance of one obstacle (`obs.x -= obstacleSpeed + level * 0.5`). -/
def moveObs (lvl : ℕ) (o : Obstacle) : Obstacle :=
  { o with x := o.x - moveSpeed lvl }

/-- The `checkCollision` function: horizontal overlap with the rocket while
the rocket's vertical span leaves the gap. -/
def checkCollision (rk : Rocket) (o : Obstacle) : Bool :=
  decide (rocketX < o.x + o.width) && decide (o.x < rocketX + rocketW) &&
  (decide (rk.y < o.topHeight) || decide (o.bottomY < rk.y + rocketH))

/-- Shield consumption on an obstacle hit (lines 429-432): clear the shield,
zero its timer, emit an explosion at the rocket. -/
def shieldHit (r : ℕ → ℚ) (g : GState) : GState :=
  { g with rocket := { g.rocket with hasShield := false, shieldTime := 0 },
           particles := g.particles ++ createExplosion r rocketX g.rocket.y }

/-- Pass-scoring trigger for one obstacle, stated on the pre-move obstacle:
not yet marked passed and, after this tick's move, fully left of the rocket. -/
def passCond (lvl : ℕ) (o : Obstacle) : Bool :=
  !o.passed && decide ((moveObs lvl o).x + o.width < rocketX)

/-- One iteration of the `updateObstacles` loop body for a single obstacle:
move, collision handling (shield consumption or game over), pass scoring,
and off-screen removal (`none` when the obstacle is spliced out). -/
def processObstacle (lvl : ℕ) (r : ℕ → ℚ) (g : GState) (o : Obstacle) :
    GState × Option Obstacle :=
  let o1 := moveObs lvl o
  let g1 := if checkCollision g.rocket o1 then
              if g.rocket.hasShield then shieldHit r g else endGame r g
            else g
  let go : GState × Obstacle :=
    if !o1.passed && decide (o1.x + o1.width < rocketX) then
      ({ g1 with score := g1.score + 50 }, { o1 with passed := true })
    else (g1, o1)
  if decide (go.2.x + go.2.width < 0) then (go.1, none) else (go.1, some go.2)

/-- Fold step threading the state and the kept obstacles through the loop. -/
def obsStep (lvl : ℕ) (r : ℕ → ℚ) (acc : GState × List Obstacle)
    (o : Obstacle) : GState × List Obstacle :=
  let pr := processObstacle lvl r acc.1 o
  (pr.1, match pr.2 with | some o2 => o2 :: acc.2 | none => acc.2)

/-- The `updateObstacles` function.  The source iterates the array from the
last index down to 0, splicing out the current element only, which processes
the elements in reverse order and keeps the survivors in their original
relative order; the fold over the reversed list reproduces this exactly. -/
def updateObstacles (r : ℕ → ℚ) (g : GState) : GState :=
  let res := g.obstacles.reverse.foldl (obsStep g.level r) (g, [])
  { res.1 with obstacles := res.2 }

/-- Horizontal advance of one star. -/
def moveStar (lvl : ℕ) (st : Star) : Star :=
  { st with x := st.x - moveSpeed lvl }

/-- Proximity test between the rocket centre and a star
(`Math.hypot ... < star.size + rocket.width / 2`, squared). -/
def starHit (y : ℚ) (st : Star) : Bool :=
  decide ((rocketX + rocketW / 2 - st.x) * (rocketX + rocketW / 2 - st.x)
        + (y + rocketH / 2 - st.y) * (y + rocketH / 2 - st.y)
        < (st.size + rocketW / 2) * (st.size + rocketW / 2))

/-- Collection trigger for one star, stated on the pre-move star. -/
def collectCond (lvl : ℕ) (y : ℚ) (st : Star) : Bool :=
  !st.collected && starHit y (moveStar lvl st)

/-- One iteration of the `updateStars` loop body. -/
def processStar (lvl : ℕ) (r : ℕ → ℚ) (g : GState) (st : Star) :
    GState × Option Star :=
  let s1 := moveStar lvl st
  let gs : GState × Star :=
    if !s1.collected && starHit g.rocket.y s1 then
      ({ g with score := g.score + 100,
                particles := g.particles ++ createExplosion r s1.x s1.y },
       { s1 with collected := true })
    else (g, s1)
  if decide (gs.2.x < -gs.2.size) then (gs.1, none) else (gs.1, some gs.2)

/-- Fold step for the star loop. -/
def starStep (lvl : ℕ) (r : ℕ → ℚ) (acc : GState × List Star) (st : Star) :
    GState × List Star :=
  let pr := processStar lvl r acc.1 st
  (pr.1, match pr.2 with | some s2 => s2 :: acc.2 | none => acc.2)

/-- The `updateStars` function (same reverse-iteration shape as
`updateObstacles`). -/
def updateStars (r : ℕ → ℚ) (g : GState) : GState :=
  let res := g.stars.reverse.foldl (starStep g.level r) (g, [])
  { res.1 with stars := res.2 }

/-- Horizontal advance of one power-up. -/
def movePowerUp (lvl : ℕ) (p : PowerUp) : PowerUp :=
  { p with x := p.x - moveSpeed lvl }

/-- Proximity test between the rocket centre and a power-up. -/
def powerUpHit (y : ℚ) (p : PowerUp) : Bool :=
  decide ((rocketX + rocketW / 2 - p.x) * (rocketX + rocketW / 2 - p.x)
        + (y + rocketH / 2 - p.y) * (y + rocketH / 2 - p.y)
        < (p.size + rocketW / 2) * (p.size + rocketW / 2))

/-- One iteration of the `updatePowerUps` loop body: on first contact mark
collected, grant the shield for exactly 300 ticks, emit an explosion. -/
def processPowerUp (lvl : ℕ) (r : ℕ → ℚ) (g : GState) (p : PowerUp) :
    GState × Option PowerUp :=
  let p1 := movePowerUp lvl p
  let gp : GState × PowerUp :=
    if !p1.collected && powerUpHit g.rocket.y p1 then
      ({ g with rocket := { g.rocket with hasShield := true, shieldTime := 300 },
                particles := g.particles ++ createExplosion r p1.x p1.y },
       { p1 with collected := true })
    else (g, p1)
  if decide (gp.2.x < -gp.2.size) then (gp.1, none) else (gp.1, some gp.2)

/-- Fold step for the power-up loop. -/
def powerUpStep (lvl : ℕ) (r : ℕ → ℚ) (acc : GState × List PowerUp)
    (p : PowerUp) : GState × List PowerUp :=
  let pr := processPowerUp lvl r acc.1 p
  (pr.1, match pr.2 with | some p2 => p2 :: acc.2 | none => acc.2)

/-- The `updatePowerUps` function. -/
def updatePowerUps (r : ℕ → ℚ) (g : GState) : GState :=
  let res := g.powerUps.reverse.foldl (powerUpStep g.level r) (g, [])
  { res.1 with powerUps := res.2 }

/-- The `updateParticles` function: advance, age, and drop dead particles. -/
def updateParticles (g : GState) : GState :=
  { g with particles := g.particles.filterMap fun p =>
      let p1 : Particle := { p with x := p.x + p.vx, y := p.y + p.vy,
                                    life := p.life - 1 }
      if p1.life ≤ 0 then none else some p1 }

/-- The `updateConfetti` function: advance under gravity 0.05 (idealised to
1/20), age, and drop confetti that died or fell past the bottom edge. -/
def updateConfetti (g : GState) : GState :=
  { g with confetti := g.confetti.filterMap fun c =>
      let c1 : Confetti := { c with x := c.x + c.vx, y := c.y + c.vy,
                                    vy := c.vy + 1/20, life := c.life - 1 }
      if c1.life ≤ 0 ∨ canvasH + 20 < c1.y then none else some c1 }

/-- Tick bookkeeping at the top of `gameLoop`: `frameCount++` and
`level = Math.floor(score / 500) + 1`. -/
def tickSetup (g : GState) : GState :=
  { g with frameCount := g.frameCount + 1, level := g.score / 500 + 1 }

/-- The body of one `gameLoop` tick, in source order: bookkeeping, rocket
update, spawns, entity updates, then `score += 1`. -/
def stepBody (e : Env) (g : GState) : GState :=
  let g1 := tickSetup g
  let g2 := updateRocket e.rand g1
  let g3 := spawns e g2
  let g4 := updateObstacles e.rand g3
  let g5 := updateStars e.rand g4
  let g6 := updatePowerUps e.rand g5
  let g7 := updateParticles g6
  let g8 := updateConfetti g7
  { g8 with score := g8.score + 1 }

/-- One invocation of `gameLoop`: a no-op when the session is not running or
the page is hidden (line 252), otherwise one full tick. -/
def step (e : Env) (g : GState) : GState :=
  if !g.gameRunning || e.hidden then g else stepBody e g

/-- Session driver: run `n` further ticks after tick `t0` from state `g`;
before tick `t` the host delivers a boost input when `boost t` is set (the
source's `handleInput`). -/
def runFrom (env : ℕ → Env) (boost : ℕ → Bool) (t0 : ℕ) (g : GState) :
    ℕ → GState
  | 0 => g
  | n + 1 =>
    let g1 := runFrom env boost t0 g n
    let g2 := if boost (t0 + n + 1) then handleInput (env (t0 + n + 1)).rand g1
              else g1
    step (env (t0 + n + 1)) g2

/-- Session driver from tick 1: run `n` ticks from `g`. -/
def run (env : ℕ → Env) (boost : ℕ → Bool) (g : GState) (n : ℕ) : GState :=
  runFrom env boost 0 g n

/-- Engine state right after `initGame` with the default configuration and an
empty persisted high score. -/
def initState : GState :=
  { gameRunning := false, score := 0, highScore := 0, level := 1,
    frameCount := 0,
    rocket := { y := canvasH / 2, velocity := 0, hasShield := false,
                shieldTime := 0, rot := 0 },
    obstacles := [], stars := [], powerUps := [], particles := [],
    confetti := [] }

/-- A fixed oracle stream used for concrete runs. -/
def constRand : ℕ → ℚ := fun _ => 1/2

/-- Environment with far-away spawn draws, used for concrete runs. -/
def quietEnv : Env :=
  { hidden := false, obstacleRand := 0, starRand := 0, powerUpRand := 0,
    rand := constRand }

/-- No boost inputs. -/
def noBoost : ℕ → Bool := fun _ => false

/-- Final state of the no-boost scenario of the spec: a fresh session stepped
500 times with no inputs. -/
def c5Final : GState := run (fun _ => quietEnv) noBoost (startGame initState) 500

/-- Environment of the engineered 450-tick session: every obstacle draw 17/27
(gap from 250 to 500), star and power-up draws 0 (they sit at y = 30, far
above the rocket's flight band, and are never collected). -/
def c4Env : Env :=
  { hidden := false, obstacleRand := 17/27, starRand := 0, powerUpRand := 0,
    rand := constRand }

/-- Boost schedule of the engineered session: one boost right before ticks
21, 60, 99, … (every 39 ticks), which keeps the rocket inside the obstacle
gap band for 450 ticks. -/
def c4Boost : ℕ → Bool := fun t => 21 ≤ t && (t - 21) % 39 == 0

/-- Final state of the engineered session: a fresh session stepped 450 times
under `c4Boost`. -/
def c4Final : GState := run (fun _ => c4Env) c4Boost (startGame initState) 450

/-- State of the no-boost scenario after 40 ticks: the unshielded rocket fell
out of bounds on tick 32, `endGame` persisted the pre-increment score 31, and
the remaining ticks were no-ops. -/
def c5Mid : GState :=
  { gameRunning := false, score := 32, highScore := 31, level := 1,
    frameCount := 32,
    rocket := { y := 564, velocity := 16, hasShield := false, shieldTime := 0,
                rot := 4/5 },
    obstacles := [], stars := [], powerUps := [],
    particles := [],
    confetti := List.replicate 120 ⟨400, -16, 0, 81/20, 8, 89⟩ }

/-- State of the engineered session after 150 ticks. -/
def c4Mid150 : GState :=
  { gameRunning := true, score := 150, highScore := 0, level := 1,
    frameCount := 150,
    rocket := { y := 641/2, velocity := -7/2, hasShield := false,
                shieldTime := 0, rot := -7/40 },
    obstacles := [⟨752, 250, 500, 80, false⟩],
    stars := [⟨587, 30, 15, false⟩],
    powerUps := [],
    particles := List.replicate 5 ⟨135/2, 425, -5/2, 0, 4, 17⟩,
    confetti := [] }

/-- State of the engineered session after 300 ticks. -/
def c4Mid300 : GState :=
  { gameRunning := true, score := 300, highScore := 0, level := 1,
    frameCount := 300,
    rocket := { y := 349, velocity := -13/2, hasShield := false,
                shieldTime := 0, rot := -13/40 },
    obstacles := [⟨302, 250, 500, 80, false⟩, ⟨707, 250, 500, 80, false⟩],
    stars := [⟨137, 30, 15, false⟩, ⟨377, 30, 15, false⟩, ⟨617, 30, 15, false⟩],
    powerUps := [⟨797, 30, 20, false⟩],
    particles := List.replicate 5 ⟨165/2, 425, -5/2, 0, 4, 23⟩,
    confetti := [] }

/-- State in the middle of a tick, after the bookkeeping, rocket-update and
spawn phases, right before the entity-update phases. -/
def spawnedState (e : Env) (g : GState) : GState :=
  spawns e (updateRocket e.rand (tickSetup g))

/-- Running state about to suffer an unshielded boundary exit (used to
instantiate universally quantified theorems). -/
def gOut : GState :=
  { gameRunning := true, score := 0, highScore := 0, level := 1,
    frameCount := 0,
    rocket := { y := 601, velocity := 0, hasShield := false, shieldTime := 0,
                rot := 0 },
    obstacles := [], stars := [], powerUps := [], particles := [],
    confetti := [] }

/-- Running state with one obstacle about to be passed this tick. -/
def gPass : GState :=
  { gameRunning := true, score := 0, highScore := 0, level := 1,
    frameCount := 0,
    rocket := { y := 300, velocity := 0, hasShield := false, shieldTime := 0,
                rot := 0 },
    obstacles := [⟨20, 80, 330, 80, false⟩], stars := [], powerUps := [],
    particles := [], confetti := [] }

/-- Running state with an active shield. -/
def gShield : GState :=
  { gameRunning := true, score := 0, highScore := 0, level := 1,
    frameCount := 0,
    rocket := { y := 300, velocity := 0, hasShield := true, shieldTime := 100,
                rot := 0 },
    obstacles := [], stars := [], powerUps := [], particles := [],
    confetti := [] }

/-- Obstacle that collides with the rocket of `gShield` after this tick's
move. -/
def oHit : Obstacle := ⟨110, 350, 600, 80, false⟩

/-- Running state about to suffer an unshielded boundary exit while holding a
score that beats the recorded high score (terminal-tick scenario). -/
def gRecord : GState :=
  { gameRunning := true, score := 10, highScore := 5, level := 1,
    frameCount := 36,
    rocket := { y := 590, velocity := 5, hasShield := false, shieldTime := 0,
                rot := 0 },
    obstacles := [], stars := [], powerUps := [], particles := [],
    confetti := [] }

/-- Shielded running state about to leave the playfield (clamping scenario). -/
def gClamp : GState :=
  { gameRunning := true, score := 0, highScore := 0, level := 1,
    frameCount := 0,
    rocket := { y := 601, velocity := 0, hasShield := true, shieldTime := 100,
                rot := 0 },
    obstacles := [], stars := [], powerUps := [], particles := [],
    confetti := [] }

/-- Uncollected power-up overlapping the rocket of `gPass` after this tick's
move. -/
def pNear : PowerUp := ⟨130, 320, 20, false⟩

/-- The same power-up already marked collected. -/
def pDone : PowerUp := ⟨130, 320, 20, true⟩

lemma runFrom_add (env : ℕ → Env) (boost : ℕ → Bool) (t0 : ℕ) (g : GState)
    (a : ℕ) : ∀ b : ℕ, runFrom env boost t0 g (a + b)
      = runFrom env boost (t0 + a) (runFrom env boost t0 g a) b := by
  intro b
  induction b with
  | zero => rfl
  | succ b ih =>
    show runFrom env boost t0 g (a + b + 1) = _
    simp only [runFrom, ih, Nat.add_assoc]

lemma step_of_not_running (e : Env) (g : GState) (h : g.gameRunning = false) :
    step e g = g := by
  simp [step, h]

lemma runFrom_of_not_running (env : ℕ → Env) (t0 : ℕ) (g : GState)
    (h : g.gameRunning = false) : ∀ n, runFrom env noBoost t0 g n = g := by
  intro n
  induction n with
  | zero => rfl
  | succ n ih => simp [runFrom, ih, noBoost, step_of_not_running _ _ h]

set_option maxRecDepth 400000 in
lemma c5_chunk1 :
    runFrom (fun _ => quietEnv) noBoost 0 (startGame initState) 40 = c5Mid := by
  with_unfolding_all decide

lemma c5Final_eq : c5Final = c5Mid := by
  show runFrom (fun _ => quietEnv) noBoost 0 (startGame initState) 500 = c5Mid
  have h : (500 : ℕ) = 40 + 460 := rfl
  rw [h, runFrom_add, c5_chunk1,
      runFrom_of_not_running _ _ _ (by rfl)]

set_option maxRecDepth 800000 in
lemma c4_chunk1 :
    runFrom (fun _ => c4Env) c4Boost 0 (startGame initState) 150 = c4Mid150 := by
  with_unfolding_all decide

set_option maxRecDepth 800000 in
lemma c4_chunk2 :
    runFrom (fun _ => c4Env) c4Boost 150 c4Mid150 150 = c4Mid300 := by
  with_unfolding_all decide

lemma c4Final_eq :
    c4Final = runFrom (fun _ => c4Env) c4Boost 300 c4Mid300 150 := by
  show runFrom (fun _ => c4Env) c4Boost 0 (startGame initState) 450 = _
  have h : (450 : ℕ) = 150 + (150 + 150) := rfl
  rw [h, runFrom_add, c4_chunk1, runFrom_add, c4_chunk2]

set_option maxRecDepth 800000 in
lemma c4Final_facts :
    c4Final.score = 500 ∧ c4Final.level = 1 ∧ c4Final.gameRunning = true := by
  rw [c4Final_eq]
  with_unfolding_all decide

lemma createExplosion_length (r : ℕ → ℚ) (x y : ℚ) :
    (createExplosion r x y).length = 15 := by
  simp [createExplosion]

lemma createConfetti_length (r : ℕ → ℚ) :
    (createConfetti r).length = 120 := by
  simp [createConfetti]

lemma endGame_score (r : ℕ → ℚ) (g : GState) :
    (endGame r g).score = g.score := by
  simp only [endGame]; split <;> rfl

lemma endGame_level (r : ℕ → ℚ) (g : GState) :
    (endGame r g).level = g.level := by
  simp only [endGame]; split <;> rfl

lemma endGame_frameCount (r : ℕ → ℚ) (g : GState) :
    (endGame r g).frameCount = g.frameCount := by
  simp only [endGame]; split <;> rfl

lemma endGame_rocket (r : ℕ → ℚ) (g : GState) :
    (endGame r g).rocket = g.rocket := by
  simp only [endGame]; split <;> rfl

lemma endGame_obstacles (r : ℕ → ℚ) (g : GState) :
    (endGame r g).obstacles = g.obstacles := by
  simp only [endGame]; split <;> rfl

lemma endGame_stars (r : ℕ → ℚ) (g : GState) :
    (endGame r g).stars = g.stars := by
  simp only [endGame]; split <;> rfl

lemma endGame_powerUps (r : ℕ → ℚ) (g : GState) :
    (endGame r g).powerUps = g.powerUps := by
  simp only [endGame]; split <;> rfl

lemma endGame_particles (r : ℕ → ℚ) (g : GState) :
    (endGame r g).particles = g.particles := by
  simp only [endGame]; split <;> rfl

lemma endGame_running (r : ℕ → ℚ) (g : GState) :
    (endGame r g).gameRunning = false := by
  simp only [endGame]; split <;> rfl

lemma endGame_confetti (r : ℕ → ℚ) (g : GState) :
    (endGame r g).confetti = g.confetti ++ createConfetti r := by
  simp only [endGame]; split <;> rfl

lemma endGame_highScore (r : ℕ → ℚ) (g : GState) :
    (endGame r g).highScore = max g.highScore g.score := by
  simp only [endGame]
  split
  · next h => exact (Nat.max_eq_right (Nat.le_of_lt h)).symm
  · next h => exact (Nat.max_eq_left (Nat.le_of_not_lt h)).symm

lemma shieldHit_score (r : ℕ → ℚ) (g : GState) :
    (shieldHit r g).score = g.score := rfl

lemma fst_ite_pair {α β : Type _} (c : Prop) [Decidable c] (x : α)
    (y z : β) : (if c then (x, y) else (x, z)).1 = x := by
  split <;> rfl

lemma foldl_preserve {α β : Type _} (f : β → α → β) (P : β → Prop)
    (hf : ∀ b a, P b → P (f b a)) :
    ∀ (l : List α) (b : β), P b → P (l.foldl f b) := by
  intro l
  induction l with
  | nil => intro b hb; exact hb
  | cons a t ih => intro b hb; exact ih _ (hf b a hb)

lemma processObstacle_score (lvl : ℕ) (r : ℕ → ℚ) (g : GState) (o : Obstacle) :
    ((processObstacle lvl r g o).1).score
      = g.score + if passCond lvl o then 50 else 0 := by
  simp only [processObstacle, passCond]
  split <;> split <;> (try split) <;>
    simp_all [fst_ite_pair, endGame_score, shieldHit_score, moveObs]

lemma processObstacle_level (lvl : ℕ) (r : ℕ → ℚ) (g : GState) (o : Obstacle) :
    ((processObstacle lvl r g o).1).level = g.level := by
  simp only [processObstacle]
  split <;> (try split) <;> (try split) <;>
    simp_all [fst_ite_pair, endGame_level, shieldHit]

lemma processObstacle_frameCount (lvl : ℕ) (r : ℕ → ℚ) (g : GState)
    (o : Obstacle) : ((processObstacle lvl r g o).1).frameCount = g.frameCount := by
  simp only [processObstacle]
  split <;> (try split) <;> (try split) <;>
    simp_all [fst_ite_pair, endGame_frameCount, shieldHit]

lemma processObstacle_stars (lvl : ℕ) (r : ℕ → ℚ) (g : GState) (o : Obstacle) :
    ((processObstacle lvl r g o).1).stars = g.stars := by
  simp only [processObstacle]
  split <;> (try split) <;> (try split) <;>
    simp_all [fst_ite_pair, endGame_stars, shieldHit]

lemma processObstacle_powerUps (lvl : ℕ) (r : ℕ → ℚ) (g : GState)
    (o : Obstacle) : ((processObstacle lvl r g o).1).powerUps = g.powerUps := by
  simp only [processObstacle]
  split <;> (try split) <;> (try split) <;>
    simp_all [fst_ite_pair, endGame_powerUps, shieldHit]

lemma processObstacle_rocket_y (lvl : ℕ) (r : ℕ → ℚ) (g : GState)
    (o : Obstacle) : ((processObstacle lvl r g o).1).rocket.y = g.rocket.y := by
  simp only [processObstacle]
  split <;> (try split) <;> (try split) <;>
    simp_all [fst_ite_pair, endGame_rocket, shieldHit]

lemma processObstacle_running_false (lvl : ℕ) (r : ℕ → ℚ) (g : GState)
    (o : Obstacle) (h : g.gameRunning = false) :
    ((processObstacle lvl r g o).1).gameRunning = false := by
  simp only [processObstacle]
  split <;> (try split) <;> (try split) <;>
    simp_all [fst_ite_pair, endGame_running, shieldHit]

lemma processObstacle_rocket_noshield (lvl : ℕ) (r : ℕ → ℚ) (g : GState)
    (o : Obstacle) (h : g.rocket.hasShield = false) :
    ((processObstacle lvl r g o).1).rocket = g.rocket := by
  simp only [processObstacle]
  split <;> (try split) <;> (try split) <;>
    simp_all [fst_ite_pair, endGame_rocket, shieldHit]

lemma processObstacle_running_hit (lvl : ℕ) (r : ℕ → ℚ) (g : GState)
    (o : Obstacle) (hs : g.rocket.hasShield = false)
    (hc : checkCollision g.rocket (moveObs lvl o) = true) :
    ((processObstacle lvl r g o).1).gameRunning = false := by
  simp only [processObstacle]
  split <;> (try split) <;>
    simp_all [fst_ite_pair, endGame_running, shieldHit, moveObs]

lemma processObstacle_shielded (lvl : ℕ) (r : ℕ → ℚ) (g : GState)
    (o : Obstacle) (hs : g.rocket.hasShield = true)
    (hc : checkCollision g.rocket (moveObs lvl o) = true) :
    ((processObstacle lvl r g o).1).rocket.hasShield = false ∧
    ((processObstacle lvl r g o).1).rocket.shieldTime = 0 ∧
    ((processObstacle lvl r g o).1).particles.length
      = g.particles.length + 15 ∧
    ((processObstacle lvl r g o).1).gameRunning = g.gameRunning := by
  simp only [processObstacle]
  split <;> (try split) <;>
    simp_all [fst_ite_pair, shieldHit, moveObs, createExplosion_length]

lemma processObstacle_running_cases (lvl : ℕ) (r : ℕ → ℚ) (g : GState)
    (o : Obstacle) (h : ((processObstacle lvl r g o).1).gameRunning = false) :
    g.gameRunning = false ∨ g.rocket.hasShield = false := by
  by_cases hrun : g.gameRunning = false
  · exact Or.inl hrun
  by_cases hsh : g.rocket.hasShield = false
  · exact Or.inr hsh
  exfalso
  simp only [Bool.not_eq_false] at hrun hsh
  revert h
  simp only [processObstacle]
  split <;> (try split) <;>
    simp_all [fst_ite_pair, shieldHit]

lemma obsStep_fst (lvl : ℕ) (r : ℕ → ℚ) (acc : GState × List Obstacle)
    (o : Obstacle) :
    (obsStep lvl r acc o).1 = (processObstacle lvl r acc.1 o).1 := rfl

lemma foldl_obsStep_score (lvl : ℕ) (r : ℕ → ℚ) :
    ∀ (l : List Obstacle) (acc : GState × List Obstacle),
    ((l.foldl (obsStep lvl r) acc).1).score
      = acc.1.score + 50 * (l.filter (fun o => passCond lvl o)).length := by
  intro l
  induction l with
  | nil => intro acc; simp
  | cons o t ih =>
    intro acc
    rw [List.foldl_cons, ih, List.filter_cons]
    by_cases h : passCond lvl o
    · simp only [obsStep_fst, processObstacle_score, h, if_true,
        List.length_cons]
      omega
    · simp [h, obsStep_fst, processObstacle_score]

lemma foldl_obsStep_hit (lvl : ℕ) (r : ℕ → ℚ) :
    ∀ (l : List Obstacle) (acc : GState × List Obstacle),
    acc.1.rocket.hasShield = false →
    ((∃ o ∈ l, checkCollision acc.1.rocket (moveObs lvl o) = true) ∨
      acc.1.gameRunning = false) →
    ((l.foldl (obsStep lvl r) acc).1).gameRunning = false := by
  intro l
  induction l with
  | nil =>
    intro acc hs hor
    rcases hor with ⟨o, ho, _⟩ | h
    · exact absurd ho (List.not_mem_nil o)
    · simpa using h
  | cons o t ih =>
    intro acc hs hor
    rw [List.foldl_cons]
    have hrk : ((obsStep lvl r acc o).1).rocket = acc.1.rocket := by
      rw [obsStep_fst]; exact processObstacle_rocket_noshield _ _ _ _ hs
    have hs2 : ((obsStep lvl r acc o).1).rocket.hasShield = false := by
      rw [hrk]; exact hs
    apply ih _ hs2
    rcases hor with ⟨o', ho', hc⟩ | h
    · rcases List.mem_cons.mp ho' with rfl | hmem
      · right
        rw [obsStep_fst]
        exact processObstacle_running_hit _ _ _ _ hs hc
      · left
        exact ⟨o', hmem, by rw [hrk]; exact hc⟩
    · right
      rw [obsStep_fst]
      exact processObstacle_running_false _ _ _ _ h

lemma updateObstacles_score (r : ℕ → ℚ) (g : GState) :
    (updateObstacles r g).score
      = g.score + 50 * (g.obstacles.filter (fun o => passCond g.level o)).length := by
  show ((g.obstacles.reverse.foldl (obsStep g.level r) (g, [])).1).score = _
  rw [foldl_obsStep_score]
  simp

lemma updateObstacles_level (r : ℕ → ℚ) (g : GState) :
    (updateObstacles r g).level = g.level := by
  show ((g.obstacles.reverse.foldl (obsStep g.level r) (g, [])).1).level = _
  exact foldl_preserve (obsStep g.level r) (fun acc => acc.1.level = g.level)
    (fun b a hb => by
      show ((obsStep g.level r b a).1).level = g.level
      rw [obsStep_fst, processObstacle_level]; exact hb)
    _ _ rfl

lemma updateObstacles_frameCount (r : ℕ → ℚ) (g : GState) :
    (updateObstacles r g).frameCount = g.frameCount := by
  show ((g.obstacles.reverse.foldl (obsStep g.level r) (g, [])).1).frameCount = _
  exact foldl_preserve (obsStep g.level r) (fun acc => acc.1.frameCount = g.frameCount)
    (fun b a hb => by
      show ((obsStep g.level r b a).1).frameCount = g.frameCount
      rw [obsStep_fst, processObstacle_frameCount]; exact hb)
    _ _ rfl

lemma updateObstacles_stars (r : ℕ → ℚ) (g : GState) :
    (updateObstacles r g).stars = g.stars := by
  show ((g.obstacles.reverse.foldl (obsStep g.level r) (g, [])).1).stars = _
  exact foldl_preserve (obsStep g.level r) (fun acc => acc.1.stars = g.stars)
    (fun b a hb => by
      show ((obsStep g.level r b a).1).stars = g.stars
      rw [obsStep_fst, processObstacle_stars]; exact hb)
    _ _ rfl

lemma updateObstacles_powerUps (r : ℕ → ℚ) (g : GState) :
    (updateObstacles r g).powerUps = g.powerUps := by
  show ((g.obstacles.reverse.foldl (obsStep g.level r) (g, [])).1).powerUps = _
  exact foldl_preserve (obsStep g.level r) (fun acc => acc.1.powerUps = g.powerUps)
    (fun b a hb => by
      show ((obsStep g.level r b a).1).powerUps = g.powerUps
      rw [obsStep_fst, processObstacle_powerUps]; exact hb)
    _ _ rfl

lemma updateObstacles_rocket_y (r : ℕ → ℚ) (g : GState) :
    (updateObstacles r g).rocket.y = g.rocket.y := by
  show ((g.obstacles.reverse.foldl (obsStep g.level r) (g, [])).1).rocket.y = _
  exact foldl_preserve (obsStep g.level r) (fun acc => acc.1.rocket.y = g.rocket.y)
    (fun b a hb => by
      show ((obsStep g.level r b a).1).rocket.y = g.rocket.y
      rw [obsStep_fst, processObstacle_rocket_y]; exact hb)
    _ _ rfl

lemma updateObstacles_running_false (r : ℕ → ℚ) (g : GState)
    (h : g.gameRunning = false) :
    (updateObstacles r g).gameRunning = false := by
  show ((g.obstacles.reverse.foldl (obsStep g.level r) (g, [])).1).gameRunning = _
  exact foldl_preserve (obsStep g.level r) (fun acc => acc.1.gameRunning = false)
    (fun b a hb => by
      show ((obsStep g.level r b a).1).gameRunning = false
      rw [obsStep_fst]; exact processObstacle_running_false _ _ _ _ hb)
    _ _ h

lemma updateObstacles_running_hit (r : ℕ → ℚ) (g : GState)
    (hs : g.rocket.hasShield = false)
    (h : ∃ o ∈ g.obstacles, checkCollision g.rocket (moveObs g.level o) = true) :
    (updateObstacles r g).gameRunning = false := by
  show ((g.obstacles.reverse.foldl (obsStep g.level r) (g, [])).1).gameRunning = _
  apply foldl_obsStep_hit g.level r g.obstacles.reverse (g, []) hs
  left
  rcases h with ⟨o, ho, hc⟩
  exact ⟨o, List.mem_reverse.mpr ho, hc⟩

lemma updateObstacles_nil (r : ℕ → ℚ) (g : GState) (h : g.obstacles = []) :
    updateObstacles r g = g := by
  cases g
  simp_all [updateObstacles]

lemma processStar_score (lvl : ℕ) (r : ℕ → ℚ) (g : GState) (st : Star) :
    ((processStar lvl r g st).1).score
      = g.score + if collectCond lvl g.rocket.y st then 100 else 0 := by
  simp only [processStar, collectCond]
  split <;> (try split) <;>
    simp_all [fst_ite_pair, moveStar, starHit]

lemma processStar_rocket (lvl : ℕ) (r : ℕ → ℚ) (g : GState) (st : Star) :
    ((processStar lvl r g st).1).rocket = g.rocket := by
  simp only [processStar]
  split <;> (try split) <;> simp_all [fst_ite_pair]

lemma processStar_running (lvl : ℕ) (r : ℕ → ℚ) (g : GState) (st : Star) :
    ((processStar lvl r g st).1).gameRunning = g.gameRunning := by
  simp only [processStar]
  split <;> (try split) <;> simp_all [fst_ite_pair]

lemma processStar_level (lvl : ℕ) (r : ℕ → ℚ) (g : GState) (st : Star) :
    ((processStar lvl r g st).1).level = g.level := by
  simp only [processStar]
  split <;> (try split) <;> simp_all [fst_ite_pair]

lemma processStar_frameCount (lvl : ℕ) (r : ℕ → ℚ) (g : GState) (st : Star) :
    ((processStar lvl r g st).1).frameCount = g.frameCount := by
  simp only [processStar]
  split <;> (try split) <;> simp_all [fst_ite_pair]

lemma processStar_obstacles (lvl : ℕ) (r : ℕ → ℚ) (g : GState) (st : Star) :
    ((processStar lvl r g st).1).obstacles = g.obstacles := by
  simp only [processStar]
  split <;> (try split) <;> simp_all [fst_ite_pair]

lemma processStar_powerUps (lvl : ℕ) (r : ℕ → ℚ) (g : GState) (st : Star) :
    ((processStar lvl r g st).1).powerUps = g.powerUps := by
  simp only [processStar]
  split <;> (try split) <;> simp_all [fst_ite_pair]

lemma processStar_highScore (lvl : ℕ) (r : ℕ → ℚ) (g : GState) (st : Star) :
    ((processStar lvl r g st).1).highScore = g.highScore := by
  simp only [processStar]
  split <;> (try split) <;> simp_all [fst_ite_pair]

lemma processStar_confetti (lvl : ℕ) (r : ℕ → ℚ) (g : GState) (st : Star) :
    ((processStar lvl r g st).1).confetti = g.confetti := by
  simp only [processStar]
  split <;> (try split) <;> simp_all [fst_ite_pair]

lemma starStep_fst (lvl : ℕ) (r : ℕ → ℚ) (acc : GState × List Star)
    (st : Star) :
    (starStep lvl r acc st).1 = (processStar lvl r acc.1 st).1 := rfl

lemma foldl_starStep_score (lvl : ℕ) (r : ℕ → ℚ) :
    ∀ (l : List Star) (acc : GState × List Star),
    ((l.foldl (starStep lvl r) acc).1).score
      = acc.1.score
        + 100 * (l.filter (fun st => collectCond lvl acc.1.rocket.y st)).length := by
  intro l
  induction l with
  | nil => intro acc; simp
  | cons st t ih =>
    intro acc
    rw [List.foldl_cons, ih, List.filter_cons]
    have hrk : ((starStep lvl r acc st).1).rocket = acc.1.rocket := by
      rw [starStep_fst]; exact processStar_rocket _ _ _ _
    rw [hrk]
    by_cases h : collectCond lvl acc.1.rocket.y st
    · simp only [starStep_fst, processStar_score, h, if_true,
        List.length_cons]
      omega
    · simp [h, starStep_fst, processStar_score]

lemma updateStars_score (r : ℕ → ℚ) (g : GState) :
    (updateStars r g).score
      = g.score
        + 100 * (g.stars.filter (fun st => collectCond g.level g.rocket.y st)).length := by
  show ((g.stars.reverse.foldl (starStep g.level r) (g, [])).1).score = _
  rw [foldl_starStep_score]
  simp

lemma updateStars_rocket (r : ℕ → ℚ) (g : GState) :
    (updateStars r g).rocket = g.rocket := by
  show ((g.stars.reverse.foldl (starStep g.level r) (g, [])).1).rocket = _
  exact foldl_preserve (starStep g.level r) (fun acc => acc.1.rocket = g.rocket)
    (fun b a hb => by
      show ((starStep g.level r b a).1).rocket = g.rocket
      rw [starStep_fst, processStar_rocket]; exact hb)
    _ _ rfl

lemma updateStars_running (r : ℕ → ℚ) (g : GState) :
    (updateStars r g).gameRunning = g.gameRunning := by
  show ((g.stars.reverse.foldl (starStep g.level r) (g, [])).1).gameRunning = _
  exact foldl_preserve (starStep g.level r)
    (fun acc => acc.1.gameRunning = g.gameRunning)
    (fun b a hb => by
      show ((starStep g.level r b a).1).gameRunning = g.gameRunning
      rw [starStep_fst, processStar_running]; exact hb)
    _ _ rfl

lemma updateStars_level (r : ℕ → ℚ) (g : GState) :
    (updateStars r g).level = g.level := by
  show ((g.stars.reverse.foldl (starStep g.level r) (g, [])).1).level = _
  exact foldl_preserve (starStep g.level r) (fun acc => acc.1.level = g.level)
    (fun b a hb => by
      show ((starStep g.level r b a).1).level = g.level
      rw [starStep_fst, processStar_level]; exact hb)
    _ _ rfl

lemma updateStars_frameCount (r : ℕ → ℚ) (g : GState) :
    (updateStars r g).frameCount = g.frameCount := by
  show ((g.stars.reverse.foldl (starStep g.level r) (g, [])).1).frameCount = _
  exact foldl_preserve (starStep g.level r)
    (fun acc => acc.1.frameCount = g.frameCount)
    (fun b a hb => by
      show ((starStep g.level r b a).1).frameCount = g.frameCount
      rw [starStep_fst, processStar_frameCount]; exact hb)
    _ _ rfl

lemma updateStars_highScore (r : ℕ → ℚ) (g : GState) :
    (updateStars r g).highScore = g.highScore := by
  show ((g.stars.reverse.foldl (starStep g.level r) (g, [])).1).highScore = _
  exact foldl_preserve (starStep g.level r)
    (fun acc => acc.1.highScore = g.highScore)
    (fun b a hb => by
      show ((starStep g.level r b a).1).highScore = g.highScore
      rw [starStep_fst, processStar_highScore]; exact hb)
    _ _ rfl

lemma updateStars_confetti (r : ℕ → ℚ) (g : GState) :
    (updateStars r g).confetti = g.confetti := by
  show ((g.stars.reverse.foldl (starStep g.level r) (g, [])).1).confetti = _
  exact foldl_preserve (starStep g.level r)
    (fun acc => acc.1.confetti = g.confetti)
    (fun b a hb => by
      show ((starStep g.level r b a).1).confetti = g.confetti
      rw [starStep_fst, processStar_confetti]; exact hb)
    _ _ rfl

lemma updateStars_nil (r : ℕ → ℚ) (g : GState) (h : g.stars = []) :
    updateStars r g = g := by
  cases g
  simp_all [updateStars]

lemma processPowerUp_score (lvl : ℕ) (r : ℕ → ℚ) (g : GState) (p : PowerUp) :
    ((processPowerUp lvl r g p).1).score = g.score := by
  simp only [processPowerUp]
  split <;> (try split) <;> simp_all [fst_ite_pair]

lemma processPowerUp_running (lvl : ℕ) (r : ℕ → ℚ) (g : GState) (p : PowerUp) :
    ((processPowerUp lvl r g p).1).gameRunning = g.gameRunning := by
  simp only [processPowerUp]
  split <;> (try split) <;> simp_all [fst_ite_pair]

lemma processPowerUp_level (lvl : ℕ) (r : ℕ → ℚ) (g : GState) (p : PowerUp) :
    ((processPowerUp lvl r g p).1).level = g.level := by
  simp only [processPowerUp]
  split <;> (try split) <;> simp_all [fst_ite_pair]

lemma processPowerUp_frameCount (lvl : ℕ) (r : ℕ → ℚ) (g : GState)
    (p : PowerUp) : ((processPowerUp lvl r g p).1).frameCount = g.frameCount := by
  simp only [processPowerUp]
  split <;> (try split) <;> simp_all [fst_ite_pair]

lemma processPowerUp_highScore (lvl : ℕ) (r : ℕ → ℚ) (g : GState)
    (p : PowerUp) : ((processPowerUp lvl r g p).1).highScore = g.highScore := by
  simp only [processPowerUp]
  split <;> (try split) <;> simp_all [fst_ite_pair]

lemma processPowerUp_confetti (lvl : ℕ) (r : ℕ → ℚ) (g : GState)
    (p : PowerUp) : ((processPowerUp lvl r g p).1).confetti = g.confetti := by
  simp only [processPowerUp]
  split <;> (try split) <;> simp_all [fst_ite_pair]

lemma processPowerUp_grant (lvl : ℕ) (r : ℕ → ℚ) (g : GState) (p : PowerUp)
    (hp : p.collected = false)
    (hh : powerUpHit g.rocket.y (movePowerUp lvl p) = true) :
    ((processPowerUp lvl r g p).1).rocket.hasShield = true ∧
    ((processPowerUp lvl r g p).1).rocket.shieldTime = 300 ∧
    (∀ p2, (processPowerUp lvl r g p).2 = some p2 → p2.collected = true) := by
  simp only [processPowerUp]
  split <;> (try split) <;>
    simp_all [fst_ite_pair, movePowerUp, powerUpHit]

lemma processPowerUp_collected (lvl : ℕ) (r : ℕ → ℚ) (g : GState)
    (p : PowerUp) (hp : p.collected = true) :
    ((processPowerUp lvl r g p).1) = g := by
  simp only [processPowerUp]
  split <;> (try split) <;> simp_all [fst_ite_pair, movePowerUp]

lemma powerUpStep_fst (lvl : ℕ) (r : ℕ → ℚ) (acc : GState × List PowerUp)
    (p : PowerUp) :
    (powerUpStep lvl r acc p).1 = (processPowerUp lvl r acc.1 p).1 := rfl

lemma updatePowerUps_score (r : ℕ → ℚ) (g : GState) :
    (updatePowerUps r g).score = g.score := by
  show ((g.powerUps.reverse.foldl (powerUpStep g.level r) (g, [])).1).score = _
  exact foldl_preserve (powerUpStep g.level r) (fun acc => acc.1.score = g.score)
    (fun b a hb => by
      show ((powerUpStep g.level r b a).1).score = g.score
      rw [powerUpStep_fst, processPowerUp_score]; exact hb)
    _ _ rfl

lemma updatePowerUps_running (r : ℕ → ℚ) (g : GState) :
    (updatePowerUps r g).gameRunning = g.gameRunning := by
  show ((g.powerUps.reverse.foldl (powerUpStep g.level r) (g, [])).1).gameRunning = _
  exact foldl_preserve (powerUpStep g.level r)
    (fun acc => acc.1.gameRunning = g.gameRunning)
    (fun b a hb => by
      show ((powerUpStep g.level r b a).1).gameRunning = g.gameRunning
      rw [powerUpStep_fst, processPowerUp_running]; exact hb)
    _ _ rfl

lemma updatePowerUps_level (r : ℕ → ℚ) (g : GState) :
    (updatePowerUps r g).level = g.level := by
  show ((g.powerUps.reverse.foldl (powerUpStep g.level r) (g, [])).1).level = _
  exact foldl_preserve (powerUpStep g.level r) (fun acc => acc.1.level = g.level)
    (fun b a hb => by
      show ((powerUpStep g.level r b a).1).level = g.level
      rw [powerUpStep_fst, processPowerUp_level]; exact hb)
    _ _ rfl

lemma updatePowerUps_frameCount (r : ℕ → ℚ) (g : GState) :
    (updatePowerUps r g).frameCount = g.frameCount := by
  show ((g.powerUps.reverse.foldl (powerUpStep g.level r) (g, [])).1).frameCount = _
  exact foldl_preserve (powerUpStep g.level r)
    (fun acc => acc.1.frameCount = g.frameCount)
    (fun b a hb => by
      show ((powerUpStep g.level r b a).1).frameCount = g.frameCount
      rw [powerUpStep_fst, processPowerUp_frameCount]; exact hb)
    _ _ rfl

lemma updatePowerUps_highScore (r : ℕ → ℚ) (g : GState) :
    (updatePowerUps r g).highScore = g.highScore := by
  show ((g.powerUps.reverse.foldl (powerUpStep g.level r) (g, [])).1).highScore = _
  exact foldl_preserve (powerUpStep g.level r)
    (fun acc => acc.1.highScore = g.highScore)
    (fun b a hb => by
      show ((powerUpStep g.level r b a).1).highScore = g.highScore
      rw [powerUpStep_fst, processPowerUp_highScore]; exact hb)
    _ _ rfl

lemma updatePowerUps_confetti (r : ℕ → ℚ) (g : GState) :
    (updatePowerUps r g).confetti = g.confetti := by
  show ((g.powerUps.reverse.foldl (powerUpStep g.level r) (g, [])).1).confetti = _
  exact foldl_preserve (powerUpStep g.level r)
    (fun acc => acc.1.confetti = g.confetti)
    (fun b a hb => by
      show ((powerUpStep g.level r b a).1).confetti = g.confetti
      rw [powerUpStep_fst, processPowerUp_confetti]; exact hb)
    _ _ rfl

lemma updatePowerUps_nil (r : ℕ → ℚ) (g : GState) (h : g.powerUps = []) :
    updatePowerUps r g = g := by
  cases g
  simp_all [updatePowerUps]

lemma updateParticles_score (g : GState) :
    (updateParticles g).score = g.score := rfl

lemma updateParticles_running (g : GState) :
    (updateParticles g).gameRunning = g.gameRunning := rfl

lemma updateParticles_level (g : GState) :
    (updateParticles g).level = g.level := rfl

lemma updateParticles_frameCount (g : GState) :
    (updateParticles g).frameCount = g.frameCount := rfl

lemma updateParticles_highScore (g : GState) :
    (updateParticles g).highScore = g.highScore := rfl

lemma updateParticles_confetti (g : GState) :
    (updateParticles g).confetti = g.confetti := rfl

lemma updateConfetti_score (g : GState) :
    (updateConfetti g).score = g.score := rfl

lemma updateConfetti_running (g : GState) :
    (updateConfetti g).gameRunning = g.gameRunning := rfl

lemma updateConfetti_level (g : GState) :
    (updateConfetti g).level = g.level := rfl

lemma updateConfetti_frameCount (g : GState) :
    (updateConfetti g).frameCount = g.frameCount := rfl

lemma updateConfetti_highScore (g : GState) :
    (updateConfetti g).highScore = g.highScore := rfl

lemma tickSetup_score (g : GState) : (tickSetup g).score = g.score := rfl

lemma tickSetup_level (g : GState) :
    (tickSetup g).level = g.score / 500 + 1 := rfl

lemma tickSetup_frameCount (g : GState) :
    (tickSetup g).frameCount = g.frameCount + 1 := rfl

lemma tickSetup_rocket (g : GState) : (tickSetup g).rocket = g.rocket := rfl

lemma tickSetup_running (g : GState) :
    (tickSetup g).gameRunning = g.gameRunning := rfl

lemma tickSetup_highScore (g : GState) :
    (tickSetup g).highScore = g.highScore := rfl

lemma spawns_score (e : Env) (g : GState) : (spawns e g).score = g.score := by
  simp only [spawns]
  split <;> split <;> split <;> rfl

lemma spawns_highScore (e : Env) (g : GState) :
    (spawns e g).highScore = g.highScore := by
  simp only [spawns]
  split <;> split <;> split <;> rfl

lemma spawns_running (e : Env) (g : GState) :
    (spawns e g).gameRunning = g.gameRunning := by
  simp only [spawns]
  split <;> split <;> split <;> rfl

lemma spawns_rocket (e : Env) (g : GState) :
    (spawns e g).rocket = g.rocket := by
  simp only [spawns]
  split <;> split <;> split <;> rfl

lemma spawns_level (e : Env) (g : GState) : (spawns e g).level = g.level := by
  simp only [spawns]
  split <;> split <;> split <;> rfl

lemma spawns_frameCount (e : Env) (g : GState) :
    (spawns e g).frameCount = g.frameCount := by
  simp only [spawns]
  split <;> split <;> split <;> rfl

lemma spawns_confetti (e : Env) (g : GState) :
    (spawns e g).confetti = g.confetti := by
  simp only [spawns]
  split <;> split <;> split <;> rfl

lemma spawns_obstacles_mem (e : Env) (g : GState) (o : Obstacle)
    (h : o ∈ g.obstacles) : o ∈ (spawns e g).obstacles := by
  simp only [spawns]
  split <;> split <;> split <;>
    simp_all [List.mem_append]

lemma integrate_hasShield_false (rk : Rocket) (h : rk.hasShield = false) :
    (integrate rk).hasShield = false := by
  simp [integrate, h]

lemma updateRocket_score (r : ℕ → ℚ) (g : GState) :
    (updateRocket r g).score = g.score := by
  simp only [updateRocket]
  split <;> (try split) <;> simp_all [endGame_score]

lemma updateRocket_level (r : ℕ → ℚ) (g : GState) :
    (updateRocket r g).level = g.level := by
  simp only [updateRocket]
  split <;> (try split) <;> simp_all [endGame_level]

lemma updateRocket_frameCount (r : ℕ → ℚ) (g : GState) :
    (updateRocket r g).frameCount = g.frameCount := by
  simp only [updateRocket]
  split <;> (try split) <;> simp_all [endGame_frameCount]

lemma updateRocket_obstacles (r : ℕ → ℚ) (g : GState) :
    (updateRocket r g).obstacles = g.obstacles := by
  simp only [updateRocket]
  split <;> (try split) <;> simp_all [endGame_obstacles]

lemma updateRocket_stars (r : ℕ → ℚ) (g : GState) :
    (updateRocket r g).stars = g.stars := by
  simp only [updateRocket]
  split <;> (try split) <;> simp_all [endGame_stars]

lemma updateRocket_powerUps (r : ℕ → ℚ) (g : GState) :
    (updateRocket r g).powerUps = g.powerUps := by
  simp only [updateRocket]
  split <;> (try split) <;> simp_all [endGame_powerUps]

lemma updateRocket_oob_noshield (r : ℕ → ℚ) (g : GState)
    (hs : (integrate g.rocket).hasShield = false)
    (hb : outOfBoundsB (integrate g.rocket) = true) :
    updateRocket r g = endGame r { g with rocket := integrate g.rocket } := by
  simp [updateRocket, hs, hb]

lemma updateRocket_rocket_noshield (r : ℕ → ℚ) (g : GState)
    (hs : (integrate g.rocket).hasShield = false) :
    (updateRocket r g).rocket = integrate g.rocket := by
  simp only [updateRocket]
  split <;> (try split) <;> simp_all [endGame_rocket]

lemma updateRocket_running_inb (r : ℕ → ℚ) (g : GState)
    (hb : outOfBoundsB (integrate g.rocket) = false) :
    (updateRocket r g).gameRunning = g.gameRunning := by
  simp [updateRocket, hb]

lemma step_run (e : Env) (g : GState) (hh : e.hidden = false)
    (hr : g.gameRunning = true) : step e g = stepBody e g := by
  simp [step, hh, hr]

lemma spawnedState_score (e : Env) (g : GState) :
    (spawnedState e g).score = g.score := by
  show (spawns e (updateRocket e.rand (tickSetup g))).score = g.score
  rw [spawns_score, updateRocket_score, tickSetup_score]

lemma spawnedState_level (e : Env) (g : GState) :
    (spawnedState e g).level = g.score / 500 + 1 := by
  show (spawns e (updateRocket e.rand (tickSetup g))).level = _
  rw [spawns_level, updateRocket_level, tickSetup_level]

lemma step_score_eq (e : Env) (g : GState) (hh : e.hidden = false)
    (hr : g.gameRunning = true) :
    (step e g).score
      = g.score + 1
        + 50 * ((spawnedState e g).obstacles.filter
            (fun o => passCond (spawnedState e g).level o)).length
        + 100 * ((spawnedState e g).stars.filter
            (fun st => collectCond (spawnedState e g).level
              (spawnedState e g).rocket.y st)).length := by
  rw [step_run e g hh hr]
  simp only [stepBody, spawnedState]
  rw [updateConfetti_score, updateParticles_score, updatePowerUps_score,
      updateStars_score, updateObstacles_score,
      updateObstacles_stars, updateObstacles_level, updateObstacles_rocket_y,
      spawns_score, updateRocket_score, tickSetup_score]
  omega

lemma step_level_eq (e : Env) (g : GState) (hh : e.hidden = false)
    (hr : g.gameRunning = true) :
    (step e g).level = g.score / 500 + 1 := by
  rw [step_run e g hh hr]
  simp only [stepBody]
  rw [updateConfetti_level, updateParticles_level, updatePowerUps_level,
      updateStars_level, updateObstacles_level,
      spawns_level, updateRocket_level, tickSetup_level]

lemma step_running_gameover (e : Env) (g : GState) (hh : e.hidden = false)
    (hr : g.gameRunning = true) (hs : g.rocket.hasShield = false)
    (hor : outOfBoundsB (integrate g.rocket) = true ∨
      ∃ o ∈ g.obstacles,
        checkCollision (integrate g.rocket)
          (moveObs (g.score / 500 + 1) o) = true) :
    (step e g).gameRunning = false := by
  rw [step_run e g hh hr]
  simp only [stepBody]
  rw [updateConfetti_running, updateParticles_running, updatePowerUps_running,
      updateStars_running]
  have hsF : (integrate (tickSetup g).rocket).hasShield = false :=
    integrate_hasShield_false _ hs
  by_cases hoob : outOfBoundsB (integrate g.rocket) = true
  · apply updateObstacles_running_false
    rw [spawns_running]
    have hbF : outOfBoundsB (integrate (tickSetup g).rocket) = true := hoob
    rw [updateRocket_oob_noshield _ _ hsF hbF, endGame_running]
  · rcases hor with h | ⟨o, ho, hc⟩
    · exact absurd h hoob
    have hrk : (spawns e (updateRocket e.rand (tickSetup g))).rocket
        = integrate g.rocket := by
      rw [spawns_rocket, updateRocket_rocket_noshield _ _ hsF]
      rfl
    have hlv : (spawns e (updateRocket e.rand (tickSetup g))).level
        = g.score / 500 + 1 := by
      rw [spawns_level, updateRocket_level, tickSetup_level]
    apply updateObstacles_running_hit
    · rw [hrk]; exact integrate_hasShield_false _ hs
    · refine ⟨o, ?_, ?_⟩
      · apply spawns_obstacles_mem
        rw [updateRocket_obstacles]
        exact ho
      · rw [hrk, hlv]
        exact hc

lemma filterMap_all_some {α β : Type _} (f : α → Option β) (g' : α → β)
    (h : ∀ a, f a = some (g' a)) : ∀ l : List α, l.filterMap f = l.map g' := by
  intro l
  induction l with
  | nil => rfl
  | cons a t ih => rw [List.filterMap_cons, h a, ih, List.map_cons]

lemma updateConfetti_fresh_length (r : ℕ → ℚ) (g : GState)
    (hc : g.confetti = createConfetti r)
    (hr : ∀ i, 0 ≤ r i ∧ r i < 1) :
    (updateConfetti g).confetti.length = 120 := by
  show (g.confetti.filterMap _).length = 120
  rw [hc, createConfetti, List.filterMap_map]
  rw [filterMap_all_some _
    (fun i => { x := r (5*i) * canvasW + (r (5*i+1) * 4 - 2),
                y := (-20 : ℚ) + (r (5*i+2) * 4 + 2),
                vx := r (5*i+1) * 4 - 2,
                vy := (r (5*i+2) * 4 + 2) + 1/20,
                size := r (5*i+3) * 8 + 4,
                life := (r (5*i+4) * 60 + 60) - 1 })
    ?_]
  · simp
  · intro i
    have h1 := (hr (5*i+4)).1
    have h2 := (hr (5*i+2)).2
    simp only [Function.comp]
    rw [if_neg]
    push_neg
    constructor
    · have : (0:ℚ) ≤ r (5*i+4) * 60 := by positivity
      show (0:ℚ) < r (5*i+4) * 60 + 60 - 1
      linarith
    · show (-20 : ℚ) + (r (5*i+2) * 4 + 2) ≤ canvasH + 20
      have : r (5*i+2) * 4 < 4 := by nlinarith
      simp only [canvasH]
      linarith

lemma spawns_no_spawn (e : Env) (g : GState)
    (h1 : obstacleSpawn g.level g.frameCount = false)
    (h2 : g.frameCount % 80 ≠ 0) (h3 : g.frameCount % 300 ≠ 0) :
    spawns e g = g := by
  simp [spawns, h1, h2, h3]

/-- Claim C8: in the very tick in which an unshielded boundary collision
triggers game over (stated here for a record-beating state with no live
entities and no spawn due), the remaining phases still execute after the
terminal transition: the frame counter advances, the 120 confetti particles
emitted by `endGame` are themselves updated by the later confetti phase, the
high score is persisted as the pre-increment score, and `score += 1` runs
afterwards — so the in-memory score exceeds the just-persisted high score by
exactly 1. -/
theorem C8_terminal_tick_order :
    ∀ (e : Env) (g : GState),
    e.hidden = false → g.gameRunning = true →
    g.rocket.hasShield = false →
    outOfBoundsB (integrate g.rocket) = true →
    g.obstacles = [] → g.stars = [] → g.powerUps = [] → g.confetti = [] →
    g.highScore < g.score → g.score < 500 →
    (∀ i, 0 ≤ e.rand i ∧ e.rand i < 1) →
    (g.frameCount + 1) % 135 ≠ 0 → (g.frameCount + 1) % 80 ≠ 0 →
    (g.frameCount + 1) % 300 ≠ 0 →
    (step e g).gameRunning = false ∧
    (step e g).highScore = g.score ∧
    (step e g).score = g.score + 1 ∧
    (step e g).score = (step e g).highScore + 1 ∧
    (step e g).frameCount = g.frameCount + 1 ∧
    (step e g).confetti.length = 120 := by
  intro e g hh hr hs hoob hobs hstars hpus hconf hhs hsc hrand h135 h80 h300
  have hsF : (integrate (tickSetup g).rocket).hasShield = false :=
    integrate_hasShield_false _ hs
  have hbF : outOfBoundsB (integrate (tickSetup g).rocket) = true := hoob
  have hur := updateRocket_oob_noshield e.rand (tickSetup g) hsF hbF
  set A := endGame e.rand
      { tickSetup g with rocket := integrate (tickSetup g).rocket } with hA
  have hAlvl : A.level = 1 := by
    rw [hA, endGame_level]
    show g.score / 500 + 1 = 1
    rw [Nat.div_eq_of_lt hsc]
  have hAframe : A.frameCount = g.frameCount + 1 := by
    rw [hA, endGame_frameCount]
    rfl
  have hAsc : A.score = g.score := by
    rw [hA, endGame_score]
    rfl
  have hAhs : A.highScore = g.score := by
    rw [hA, endGame_highScore]
    show max g.highScore g.score = g.score
    exact Nat.max_eq_right (Nat.le_of_lt hhs)
  have hArun : A.gameRunning = false := by rw [hA]; exact endGame_running _ _
  have hAobs : A.obstacles = [] := by rw [hA, endGame_obstacles]; exact hobs
  have hAstars : A.stars = [] := by rw [hA, endGame_stars]; exact hstars
  have hApus : A.powerUps = [] := by rw [hA, endGame_powerUps]; exact hpus
  have hAconf : A.confetti = createConfetti e.rand := by
    rw [hA, endGame_confetti]
    show g.confetti ++ createConfetti e.rand = _
    rw [hconf]
    rfl
  have hsp : spawns e A = A := by
    apply spawns_no_spawn
    · rw [hAlvl, hAframe]
      simp [obstacleSpawn, spawnPeriod, obstacleFrequency]
      omega
    · rw [hAframe]; exact h80
    · rw [hAframe]; exact h300
  rw [step_run e g hh hr]
  simp only [stepBody]
  rw [hur, hsp, updateObstacles_nil e.rand A hAobs,
      updateStars_nil e.rand A hAstars, updatePowerUps_nil e.rand A hApus]
  refine ⟨?_, ?_, ?_, ?_, ?_, ?_⟩
  · simp [updateConfetti_running, updateParticles_running, hArun]
  · simp [updateConfetti_highScore, updateParticles_highScore, hAhs]
  · simp [updateConfetti_score, updateParticles_score, hAsc]
  · simp [updateConfetti_score, updateParticles_score,
      updateConfetti_highScore, updateParticles_highScore, hAsc, hAhs]
  · simp [updateConfetti_frameCount, updateParticles_frameCount, hAframe]
  · show (updateConfetti (updateParticles A)).confetti.length = 120
    exact updateConfetti_fresh_length e.rand _
      (by rw [updateParticles_confetti]; exact hAconf) hrand

/-- Claim C1: the claim says the level-adjusted obstacle-spawn period is
clamped to a minimum positive value.  The code applies no clamp: at level 28
the period `obstacleFrequency - level * 5` is exactly 0 (the JavaScript
`frameCount % 0` is `NaN`, so no obstacle ever spawns at level 28) and from
level 29 on the period is negative (the remainder test then fires every
`|period|` ticks).  This theorem evaluates the code's period at the failing
levels. -/
theorem C1_spawn_period_unclamped :
    spawnPeriod 28 = 0 ∧ spawnPeriod 29 = -5 ∧
    (∀ frame : ℕ, obstacleSpawn 28 frame = false) ∧
    obstacleSpawn 29 10 = true := by
  refine ⟨by with_unfolding_all decide, by with_unfolding_all decide, ?_,
    by with_unfolding_all decide⟩
  intro frame
  have h : spawnPeriod 28 = 0 := by with_unfolding_all decide
  simp [obstacleSpawn, h]

/-- Claim C2: a `step()` on a non-running session is a complete no-op, and a
step in which an unshielded actor collides (with the playfield boundary or
with an obstacle) ends with `running = false`; every subsequent `step()` then
returns the state unchanged, so the Running-to-GameOver transition happens
exactly once. -/
theorem C2_gameover_absorbing :
    (∀ (e : Env) (g : GState), g.gameRunning = false → step e g = g) ∧
    (∀ (e : Env) (g : GState), e.hidden = false → g.gameRunning = true →
      g.rocket.hasShield = false →
      (outOfBoundsB (integrate g.rocket) = true ∨
        ∃ o ∈ g.obstacles,
          checkCollision (integrate g.rocket)
            (moveObs (g.score / 500 + 1) o) = true) →
      (step e g).gameRunning = false ∧
        ∀ e2 : Env, step e2 (step e g) = step e g) := by
  refine ⟨fun e g h => step_of_not_running e g h, ?_⟩
  intro e g hh hr hs hor
  have h1 := step_running_gameover e g hh hr hs hor
  exact ⟨h1, fun e2 => step_of_not_running e2 _ h1⟩

/-- Claim C2: a `step()` on a non-running session is a complete no-op, and a
step in which an unshielded actor collides (with the playfield boundary or
with an obstacle) ends with `running = false`; every subsequent `step()` then
returns the state unchanged, so the Running-to-GameOver transition happens
exactly once. -/
theorem C2_gameover_absorbing_witness :
    (step quietEnv gOut).gameRunning = false ∧
      step quietEnv (step quietEnv gOut) = step quietEnv gOut := by
  have h := C2_gameover_absorbing.2 quietEnv gOut rfl rfl rfl
    (Or.inl (by with_unfolding_all decide))
  exact ⟨h.1, h.2 quietEnv⟩

/-- Claim C3: for every step taken while running, the score grows by exactly
1, plus 50 per obstacle whose trailing edge crosses the actor's leading edge
this tick (at most once per obstacle, guarded by its `passed` flag), plus 100
per star first collected this tick; in particular the score strictly
increases while running. -/
theorem C3_score_delta :
    ∀ (e : Env) (g : GState), e.hidden = false → g.gameRunning = true →
    ((step e g).score
      = g.score + 1
        + 50 * ((spawnedState e g).obstacles.filter
            (fun o => passCond (spawnedState e g).level o)).length
        + 100 * ((spawnedState e g).stars.filter
            (fun st => collectCond (spawnedState e g).level
              (spawnedState e g).rocket.y st)).length) ∧
    g.score < (step e g).score := by
  intro e g hh hr
  have h := step_score_eq e g hh hr
  exact ⟨h, by rw [h]; omega⟩

/-- Claim C3: for every step taken while running, the score grows by exactly
1, plus 50 per obstacle whose trailing edge crosses the actor's leading edge
this tick (at most once per obstacle, guarded by its `passed` flag), plus 100
per star first collected this tick; in particular the score strictly
increases while running. -/
theorem C3_score_delta_witness : (step quietEnv gPass).score = 51 := by
  have h := (C3_score_delta quietEnv gPass rfl rfl).1
  rw [h]
  with_unfolding_all decide

/-- Claim C4, amended: `level` is recomputed at the start of each tick from
the pre-tick score, so after a running step `level = floor(pre-step score /
500) + 1` — not `floor(current score / 500) + 1`, which fails at any
observable point whose preceding tick crossed a 500-point boundary (see the
counterexample).  Score is non-decreasing, hence level never decreases within
a session, and a non-running step leaves level unchanged. -/
theorem C4_level_formula_amended :
    (∀ (e : Env) (g : GState), e.hidden = false → g.gameRunning = true →
      (step e g).level = g.score / 500 + 1 ∧
      g.score ≤ (step e g).score ∧
      (g.level ≤ g.score / 500 + 1 → g.level ≤ (step e g).level)) ∧
    (∀ (e : Env) (g : GState), g.gameRunning = false →
      (step e g).level = g.level) := by
  constructor
  · intro e g hh hr
    have hl := step_level_eq e g hh hr
    have hsc := step_score_eq e g hh hr
    exact ⟨hl, by rw [hsc]; omega, fun hle => by rw [hl]; exact hle⟩
  · intro e g h
    rw [step_of_not_running e g h]

/-- Claim C4, amended: `level` is recomputed at the start of each tick from
the pre-tick score, so after a running step `level = floor(pre-step score /
500) + 1` — not `floor(current score / 500) + 1`, which fails at any
observable point whose preceding tick crossed a 500-point boundary (see the
counterexample).  Score is non-decreasing, hence level never decreases within
a session, and a non-running step leaves level unchanged. -/
theorem C4_level_formula_amended_witness :
    (step quietEnv (startGame initState)).level = 1 ∧
    (startGame initState).score ≤ (step quietEnv (startGame initState)).score := by
  have h := C4_level_formula_amended.1 quietEnv (startGame initState) rfl rfl
  refine ⟨?_, h.2.1⟩
  rw [h.1]
  with_unfolding_all decide

/-- Claim C4 counterexample: a genuine 450-tick session (boosts every 39
ticks from tick 21, gap draw 17/27) ends still running with score 500 — one
obstacle passed at tick 395 — but `level = 1 ≠ floor(500/500) + 1 = 2` at
that observable point, refuting `level = floor(score/500)+1` "at every
observable point". -/
theorem C4_level_counterexample :
    c4Final.gameRunning = true ∧ c4Final.score = 500 ∧ c4Final.level = 1 ∧
    c4Final.level ≠ c4Final.score / 500 + 1 := by
  obtain ⟨h1, h2, h3⟩ := c4Final_facts
  refine ⟨h3, h1, h2, ?_⟩
  rw [h1, h2]
  decide

/-- Claim C5 counterexample: stepping a fresh session 500 times with no
boost inputs does not yield score 500 and level 2: with no boosts the
unshielded actor falls out of bounds on tick 32, so the premise "no
collisions occurring" is unrealizable and the session ends at score 32. -/
theorem C5_scenario_counterexample : ¬(c5Final.score = 500 ∧ c5Final.level = 2) := by
  rw [c5Final_eq]
  with_unfolding_all decide

/-- Claim C5, amended: a fresh session stepped 500 times with no boost
inputs reaches score 32 and level 1 and is no longer running — gravity pulls
the unshielded actor out of bounds on tick 32 (a collision), ending the
session; the spec's collision-free 500-tick no-boost run does not exist. -/
theorem C5_scenario_amended :
    c5Final.score = 32 ∧ c5Final.level = 1 ∧ c5Final.gameRunning = false := by
  rw [c5Final_eq]
  with_unfolding_all decide

/-- Claim C6: when the actor collides with an obstacle while the shield is
active, processing that obstacle clears the shield flag, zeroes the shield
timer, emits a 15-particle explosion, and leaves the running flag unchanged;
conversely obstacle processing can only end the session when the shield was
inactive. -/
theorem C6_shield_absorbs :
    (∀ (lvl : ℕ) (r : ℕ → ℚ) (g : GState) (o : Obstacle),
      g.rocket.hasShield = true →
      checkCollision g.rocket (moveObs lvl o) = true →
      ((processObstacle lvl r g o).1).rocket.hasShield = false ∧
      ((processObstacle lvl r g o).1).rocket.shieldTime = 0 ∧
      ((processObstacle lvl r g o).1).particles.length
        = g.particles.length + 15 ∧
      ((processObstacle lvl r g o).1).gameRunning = g.gameRunning) ∧
    (∀ (lvl : ℕ) (r : ℕ → ℚ) (g : GState) (o : Obstacle),
      ((processObstacle lvl r g o).1).gameRunning = false →
      g.gameRunning = false ∨ g.rocket.hasShield = false) :=
  ⟨processObstacle_shielded, processObstacle_running_cases⟩

/-- Claim C6: when the actor collides with an obstacle while the shield is
active, processing that obstacle clears the shield flag, zeroes the shield
timer, emits a 15-particle explosion, and leaves the running flag unchanged;
conversely obstacle processing can only end the session when the shield was
inactive. -/
theorem C6_shield_absorbs_witness :
    ((processObstacle 1 constRand gShield oHit).1).rocket.hasShield = false ∧
    ((processObstacle 1 constRand gShield oHit).1).rocket.shieldTime = 0 ∧
    ((processObstacle 1 constRand gShield oHit).1).particles.length
      = gShield.particles.length + 15 ∧
    ((processObstacle 1 constRand gShield oHit).1).gameRunning
      = gShield.gameRunning :=
  C6_shield_absorbs.1 1 constRand gShield oHit rfl
    (by with_unfolding_all decide)

/-- Claim C7: `endGame` updates the persisted high score to the maximum of
the previous high score and the session's score, while `stopGame` only clears
the running flag and performs no high-score update. -/
theorem C7_highscore_update :
    ∀ (r : ℕ → ℚ) (g : GState),
    (endGame r g).highScore = max g.highScore g.score ∧
    stopGame g = { g with gameRunning := false } ∧
    (stopGame g).highScore = g.highScore :=
  fun r g => ⟨endGame_highScore r g, rfl, rfl⟩

/-- Claim C8: in the very tick in which an unshielded boundary collision
triggers game over (stated here for a record-beating state with no live
entities and no spawn due), the remaining phases still execute after the
terminal transition: the frame counter advances, the 120 confetti particles
emitted by `endGame` are themselves updated by the later confetti phase, the
high score is persisted as the pre-increment score, and `score += 1` runs
afterwards — so the in-memory score exceeds the just-persisted high score by
exactly 1. -/
theorem C8_terminal_tick_order_witness :
    (step quietEnv gRecord).gameRunning = false ∧
    (step quietEnv gRecord).highScore = gRecord.score ∧
    (step quietEnv gRecord).score = (step quietEnv gRecord).highScore + 1 := by
  have h := C8_terminal_tick_order quietEnv gRecord rfl rfl rfl
    (by with_unfolding_all decide) rfl rfl rfl rfl
    (by decide) (by decide)
    (fun i => ⟨by norm_num [constRand, quietEnv], by norm_num [constRand, quietEnv]⟩)
    (by decide) (by decide) (by decide)
  exact ⟨h.1, h.2.1, h.2.2.2.1⟩

/-- Claim C9: whenever the integrated actor leaves the vertical playfield
bounds while the shield is (still) active, `updateRocket` clamps its y
position into [0, canvas height − actor height] and sets the vertical
velocity to exactly 0 on every such contact, without ending the session. -/
theorem C9_shield_boundary_clamp :
    ∀ (r : ℕ → ℚ) (g : GState),
    (integrate g.rocket).hasShield = true →
    outOfBoundsB (integrate g.rocket) = true →
    (updateRocket r g).rocket.y
        = max 0 (min (canvasH - rocketH) (integrate g.rocket).y) ∧
    (updateRocket r g).rocket.velocity = 0 ∧
    0 ≤ (updateRocket r g).rocket.y ∧
    (updateRocket r g).rocket.y ≤ canvasH - rocketH ∧
    (updateRocket r g).gameRunning = g.gameRunning := by
  intro r g hsh hb
  refine ⟨?_, ?_, ?_, ?_, ?_⟩ <;>
    simp only [updateRocket, hb, hsh, Bool.not_true, if_true, if_false]
  · rfl
  · rfl
  · show (0:ℚ) ≤ max 0 (min (canvasH - rocketH) (integrate g.rocket).y)
    exact le_max_left _ _
  · show max 0 (min (canvasH - rocketH) (integrate g.rocket).y)
        ≤ canvasH - rocketH
    apply max_le
    · norm_num [canvasH, rocketH]
    · exact min_le_left _ _
  · rfl

/-- Claim C9: whenever the integrated actor leaves the vertical playfield
bounds while the shield is (still) active, `updateRocket` clamps its y
position into [0, canvas height − actor height] and sets the vertical
velocity to exactly 0 on every such contact, without ending the session. -/
theorem C9_shield_boundary_clamp_witness :
    (updateRocket constRand gClamp).rocket.y
        = max 0 (min (canvasH - rocketH) (integrate gClamp.rocket).y) ∧
    (updateRocket constRand gClamp).rocket.velocity = 0 := by
  have h := C9_shield_boundary_clamp constRand gClamp
    (by with_unfolding_all decide) (by with_unfolding_all decide)
  exact ⟨h.1, h.2.1⟩

/-- Claim C10: collecting an uncollected shield power-up sets the shield
timer to exactly 300 ticks and the shield flag to true regardless of the
prior shield state (re-collection while shielded resets the timer to 300
rather than stacking), marks the power-up collected, and an already-collected
power-up has no effect on the state at all. -/
theorem C10_powerup_shield_grant :
    (∀ (lvl : ℕ) (r : ℕ → ℚ) (g : GState) (p : PowerUp),
      p.collected = false →
      powerUpHit g.rocket.y (movePowerUp lvl p) = true →
      ((processPowerUp lvl r g p).1).rocket.hasShield = true ∧
      ((processPowerUp lvl r g p).1).rocket.shieldTime = 300 ∧
      (∀ p2, (processPowerUp lvl r g p).2 = some p2 → p2.collected = true)) ∧
    (∀ (lvl : ℕ) (r : ℕ → ℚ) (g : GState) (p : PowerUp),
      p.collected = true → ((processPowerUp lvl r g p).1) = g) :=
  ⟨processPowerUp_grant, processPowerUp_collected⟩

/-- Claim C10: collecting an uncollected shield power-up sets the shield
timer to exactly 300 ticks and the shield flag to true regardless of the
prior shield state (re-collection while shielded resets the timer to 300
rather than stacking), marks the power-up collected, and an already-collected
power-up has no effect on the state at all. -/
theorem C10_powerup_shield_grant_witness :
    ((processPowerUp 1 constRand gPass pNear).1).rocket.hasShield = true ∧
    ((processPowerUp 1 constRand gPass pNear).1).rocket.shieldTime = 300 ∧
    ((processPowerUp 1 constRand gPass pDone).1) = gPass := by
  have h1 := C10_powerup_shield_grant.1 1 constRand gPass pNear rfl
    (by with_unfolding_all decide)
  have h2 := C10_powerup_shield_grant.2 1 constRand gPass pDone rfl
  exact ⟨h1.1, h1.2.1, h2⟩

end RocketDodge
